import Mathlib

/-!
Verification development for `src/PeaksAndValleys/js/GLSkybox.js` (TunnelKart).

The file shallowly embeds the skybox component: the constant mesh data, the
WebGL context as an explicit state record threaded through every GL call,
the `mat4`/`vec3` linear-algebra collaborator as rational 4×4 matrices, and
the constructor / `initShader` / `initTexture` / `image.onload` / `render`
operations as pure state-passing functions that follow the source line by
line.  Theorems about the spec's claims follow the definitions.
-/

namespace GLSkyboxModel

/-! ## The mat4 / vec3 collaborator

The glMatrix-style library the source calls (`mat4`, `vec3`) is not part of
`src/`; its operations are modelled from the spec: matrices are 4×4, the
model matrix is "reset to identity" (`mat4.identity`), translated by the
position (`mat4.translate`, i.e. multiplication on the right by a pure
translation matrix), and `mat4.multiply(view, model, dest)` computes
"model-view = view × model". -/

/-- A 4×4 matrix over ℚ, standing in for a glMatrix `mat4` (the source
only ever builds, multiplies and uploads these, so the storage order is
irrelevant to the claims). -/
abbrev Mat4 := Matrix (Fin 4) (Fin 4) ℚ

/-- A 3-component vector, standing in for a glMatrix `vec3`. -/
structure Vec3 where
  x : ℚ
  y : ℚ
  z : ℚ
deriving Repr, DecidableEq

/-- Modelled from the spec: `vec3.create([0.0, 0.0, 0.0])` builds the zero
position vector. -/
def vec3_create (x y z : ℚ) : Vec3 := ⟨x, y, z⟩

/-- The pure translation matrix by `p` (identity plus the components of `p`
in the last column). -/
def translationMat (p : Vec3) : Mat4 :=
  !![1, 0, 0, p.x;
     0, 1, 0, p.y;
     0, 0, 1, p.z;
     0, 0, 0, 1]

/-- Modelled from the spec: `mat4.identity(dest)` resets a matrix to the
identity. -/
def mat4_identity : Mat4 := 1

/-- Modelled from the spec: `mat4.create()` returns a fresh matrix; the spec
says construction "initializes model matrix, model-view matrix, and position
to identity/zero", so a fresh matrix is the identity. -/
def mat4_create : Mat4 := 1

/-- Modelled from the spec: `mat4.translate(mat, vec)` post-multiplies `mat`
by the pure translation by `vec` ("applies the stored translation"). -/
def mat4_translate (m : Mat4) (p : Vec3) : Mat4 := m * translationMat p

/-- Modelled from the spec: `mat4.multiply(a, b, dest)` stores the product
`a × b` in `dest` ("computes model-view = view × model"). -/
def mat4_multiply (a b : Mat4) : Mat4 := a * b

/-! ## The constant mesh data (GLSkybox.js lines 36–74) -/

/-- The vertex positions, transcribed from the `vertices` literal: four
corners for each of the six cube faces, components in [-1, 1]. -/
def skyboxVertices : List ℚ :=
  [-1, -1, -1,   1, -1, -1,   1,  1, -1,  -1,  1, -1,  /- Front -/
    1, -1,  1,  -1, -1,  1,  -1,  1,  1,   1,  1,  1,  /- Back -/
   -1,  1, -1,   1,  1, -1,   1,  1,  1,  -1,  1,  1,  /- Top -/
   -1, -1,  1,   1, -1,  1,   1, -1, -1,  -1, -1, -1,  /- Bottom -/
   -1, -1,  1,  -1, -1, -1,  -1,  1, -1,  -1,  1,  1,  /- Left -/
    1, -1, -1,   1, -1,  1,   1,  1,  1,   1,  1, -1]  /- Right -/

/-- The texture coordinates, transcribed from the `coords` literal: one
(u, v) pair per vertex, addressing quadrants of the 4×4 atlas. -/
def skyboxCoords : List (ℚ × ℚ) :=
  [(1/4, 2/4), (2/4, 2/4), (2/4, 3/4), (1/4, 3/4),  /- Front -/
   (3/4, 2/4), (4/4, 2/4), (4/4, 3/4), (3/4, 3/4),  /- Back -/
   (1/4, 3/4), (2/4, 3/4), (2/4, 4/4), (1/4, 4/4),  /- Top -/
   (1/4, 1/4), (2/4, 1/4), (2/4, 2/4), (1/4, 2/4),  /- Bottom -/
   (0/4, 2/4), (1/4, 2/4), (1/4, 3/4), (0/4, 3/4),  /- Left -/
   (2/4, 2/4), (3/4, 2/4), (3/4, 3/4), (2/4, 3/4)]  /- Right -/

/-- The triangle-list indices, transcribed from the `indices` literal. -/
def skyboxIndices : List ℕ :=
  [0, 1, 2, 0, 2, 3,       /- Front -/
   4, 5, 6, 4, 6, 7,       /- Back -/
   8, 9, 10, 8, 10, 11,    /- Top -/
   12, 13, 14, 12, 14, 15, /- Bottom -/
   16, 17, 18, 16, 18, 19, /- Left -/
   20, 21, 22, 20, 22, 23] /- Right -/

/-- The atlas quadrant assigned to each face (face 0 = Front … face 5 =
Right), as a cell (cu, cv) of the 4×4 grid, from the layout comment in the
source: Front at column 1 / row 2, Back at (3, 2), Top at (1, 3), Bottom at
(1, 1), Left at (0, 2), Right at (2, 2) (rows counted bottom-up in v). -/
def faceQuadrant : Fin 6 → ℕ × ℕ
  | 0 => (1, 2)
  | 1 => (3, 2)
  | 2 => (1, 3)
  | 3 => (1, 1)
  | 4 => (0, 2)
  | 5 => (2, 2)

/-- `(u, v)` lies inside quadrant `(cu, cv)` of the 4×4 grid, i.e. in
`[cu/4, (cu+1)/4] × [cv/4, (cv+1)/4]`. -/
def inQuadrant (cell : ℕ × ℕ) (uv : ℚ × ℚ) : Prop :=
  (cell.1 : ℚ) / 4 ≤ uv.1 ∧ uv.1 ≤ ((cell.1 : ℚ) + 1) / 4 ∧
  (cell.2 : ℚ) / 4 ≤ uv.2 ∧ uv.2 ≤ ((cell.2 : ℚ) + 1) / 4

instance (cell : ℕ × ℕ) (uv : ℚ × ℚ) : Decidable (inQuadrant cell uv) := by
  unfold inQuadrant; infer_instance

/-- The four texture coordinates of face `f` (faces are consecutive groups
of four vertices). -/
def faceCoords (f : Fin 6) : List (ℚ × ℚ) :=
  (skyboxCoords.drop (4 * f.val)).take 4

/-- The flat float array uploaded for the texture-coordinate buffer
(`new Float32Array(coords)`). -/
def skyboxCoordsFlat : List ℚ := skyboxCoords.flatMap fun uv => [uv.1, uv.2]

/-! ## WebGL enumerants used by the source -/

namespace WebGL

def DEPTH_TEST : ℕ := 2929
def TRIANGLES : ℕ := 4
def UNSIGNED_SHORT : ℕ := 5123
def UNSIGNED_BYTE : ℕ := 5121
def FLOAT : ℕ := 5126
def TEXTURE_2D : ℕ := 3553
def TEXTURE0 : ℕ := 33984
def ARRAY_BUFFER : ℕ := 34962
def ELEMENT_ARRAY_BUFFER : ℕ := 34963
def STATIC_DRAW : ℕ := 35044
def RGBA : ℕ := 6408
def LINEAR : ℕ := 9729
def TEXTURE_MAG_FILTER : ℕ := 10240
def TEXTURE_MIN_FILTER : ℕ := 10241
def UNPACK_FLIP_Y_WEBGL : ℕ := 37440
def FRAGMENT_SHADER : ℕ := 35632
def VERTEX_SHADER : ℕ := 35633

end WebGL

/-! ## The WebGL context as explicit state

The global `gl` object is shared mutable state; every `gl.*` call the source
makes becomes a pure function on `GLState`.  Handles created by
`createProgram` / `createTexture` / `createBuffer` / location lookups are
fresh naturals drawn from a counter.  Stores keyed by handle are association
lists with the most recent write in front. -/

/-- Contents of a 2D texture image level, as set by `gl.texImage2D`. -/
inductive TexImage
  | pixels (width height : ℕ) (data : List ℕ)
  | domImage (src : String)
deriving Repr, DecidableEq

/-- Contents uploaded by `gl.bufferData` (a `Float32Array` or a
`Uint16Array`). -/
inductive BufferContent
  | f32 (data : List ℚ)
  | u16 (data : List ℕ)
deriving Repr, DecidableEq

/-- A vertex-attribute binding recorded by `gl.vertexAttribPointer`
(capturing the `ARRAY_BUFFER` bound at the time of the call). -/
structure AttribPointer where
  buffer : Option ℕ
  itemSize : ℕ
  dataType : ℕ
  normalized : Bool
  stride : ℕ
  offset : ℕ
deriving Repr, DecidableEq

/-- One `gl.drawElements` call as it lands in the command trace, including
whether depth testing was active when it was issued. -/
structure DrawCall where
  mode : ℕ
  count : ℕ
  indexType : ℕ
  offset : ℕ
  depthTestActive : Bool
deriving Repr, DecidableEq

/-- The observable state of the WebGL context. -/
structure GLState where
  depthTest : Bool
  arrayBufferBinding : Option ℕ
  elementArrayBinding : Option ℕ
  texture2DBinding : Option ℕ
  activeTextureUnit : ℕ
  unpackFlipY : Bool
  currentProgram : Option ℕ
  attachedShaders : List (ℕ × ℕ)
  linkedPrograms : List ℕ
  enabledAttribArrays : List ℕ
  attribPointers : List (ℕ × AttribPointer)
  uniformMat4s : List (ℕ × Mat4)
  uniformInts : List (ℕ × ℤ)
  textures : List (ℕ × TexImage)
  texParams : List (ℕ × ℕ × ℕ)
  bufferStore : List (ℕ × BufferContent)
  drawCalls : List DrawCall
  nextId : ℕ

/-- `gl.enable(gl.DEPTH_TEST)`. -/
def glEnableDepthTest (s : GLState) : GLState := { s with depthTest := true }

/-- `gl.disable(gl.DEPTH_TEST)`. -/
def glDisableDepthTest (s : GLState) : GLState := { s with depthTest := false }

/-- `gl.useProgram(p)`. -/
def glUseProgram (p : ℕ) (s : GLState) : GLState := { s with currentProgram := some p }

/-- `gl.bindBuffer(gl.ARRAY_BUFFER, b)`. -/
def glBindArrayBuffer (b : Option ℕ) (s : GLState) : GLState :=
  { s with arrayBufferBinding := b }

/-- `gl.bindBuffer(gl.ELEMENT_ARRAY_BUFFER, b)`. -/
def glBindElementArrayBuffer (b : Option ℕ) (s : GLState) : GLState :=
  { s with elementArrayBinding := b }

/-- `gl.bindTexture(gl.TEXTURE_2D, t)`; `t = none` models binding `null`. -/
def glBindTexture2D (t : Option ℕ) (s : GLState) : GLState :=
  { s with texture2DBinding := t }

/-- `gl.activeTexture(u)`. -/
def glActiveTexture (u : ℕ) (s : GLState) : GLState := { s with activeTextureUnit := u }

/-- `gl.pixelStorei(gl.UNPACK_FLIP_Y_WEBGL, b)`. -/
def glPixelStoreiFlipY (b : Bool) (s : GLState) : GLState := { s with unpackFlipY := b }

/-- `gl.createBuffer()` — returns a fresh handle. -/
def glCreateBuffer (s : GLState) : ℕ × GLState :=
  (s.nextId, { s with nextId := s.nextId + 1 })

/-- `gl.createTexture()` — returns a fresh handle. -/
def glCreateTexture (s : GLState) : ℕ × GLState :=
  (s.nextId, { s with nextId := s.nextId + 1 })

/-- `gl.createProgram()` — returns a fresh handle. -/
def glCreateProgram (s : GLState) : ℕ × GLState :=
  (s.nextId, { s with nextId := s.nextId + 1 })

/-- `gl.getAttribLocation(p, name)` — modelled as a fresh location. -/
def glGetAttribLocation (s : GLState) : ℕ × GLState :=
  (s.nextId, { s with nextId := s.nextId + 1 })

/-- `gl.getUniformLocation(p, name)` — modelled as a fresh location. -/
def glGetUniformLocation (s : GLState) : ℕ × GLState :=
  (s.nextId, { s with nextId := s.nextId + 1 })

/-- `gl.bufferData(gl.ARRAY_BUFFER, data, gl.STATIC_DRAW)`: stores into the
buffer currently bound to `ARRAY_BUFFER`. -/
def glBufferDataArray (data : BufferContent) (s : GLState) : GLState :=
  match s.arrayBufferBinding with
  | some b => { s with bufferStore := (b, data) :: s.bufferStore }
  | none => s

/-- `gl.bufferData(gl.ELEMENT_ARRAY_BUFFER, data, gl.STATIC_DRAW)`. -/
def glBufferDataElement (data : BufferContent) (s : GLState) : GLState :=
  match s.elementArrayBinding with
  | some b => { s with bufferStore := (b, data) :: s.bufferStore }
  | none => s

/-- `gl.texImage2D(gl.TEXTURE_2D, 0, …)`: stores the image into the texture
currently bound to `TEXTURE_2D`. -/
def glTexImage2D (img : TexImage) (s : GLState) : GLState :=
  match s.texture2DBinding with
  | some t => { s with textures := (t, img) :: s.textures }
  | none => s

/-- `gl.texParameteri(gl.TEXTURE_2D, pname, param)` on the bound texture. -/
def glTexParameteri (pname param : ℕ) (s : GLState) : GLState :=
  match s.texture2DBinding with
  | some t => { s with texParams := (t, pname, param) :: s.texParams }
  | none => s

/-- `gl.enableVertexAttribArray(a)`. -/
def glEnableVertexAttribArray (a : ℕ) (s : GLState) : GLState :=
  { s with enabledAttribArrays := a :: s.enabledAttribArrays }

/-- `gl.vertexAttribPointer(loc, itemSize, type, normalized, stride, offset)`. -/
def glVertexAttribPointer (loc itemSize dataType : ℕ) (normalized : Bool)
    (stride offset : ℕ) (s : GLState) : GLState :=
  { s with attribPointers :=
      (loc, ⟨s.arrayBufferBinding, itemSize, dataType, normalized, stride, offset⟩)
        :: s.attribPointers }

/-- `gl.uniformMatrix4fv(loc, false, m)`. -/
def glUniformMatrix4fv (loc : ℕ) (m : Mat4) (s : GLState) : GLState :=
  { s with uniformMat4s := (loc, m) :: s.uniformMat4s }

/-- `gl.uniform1i(loc, v)`. -/
def glUniform1i (loc : ℕ) (v : ℤ) (s : GLState) : GLState :=
  { s with uniformInts := (loc, v) :: s.uniformInts }

/-- `gl.attachShader(prog, sh)`. -/
def glAttachShader (prog sh : ℕ) (s : GLState) : GLState :=
  { s with attachedShaders := (prog, sh) :: s.attachedShaders }

/-- `gl.linkProgram(p)`. -/
def glLinkProgram (p : ℕ) (s : GLState) : GLState :=
  { s with linkedPrograms := p :: s.linkedPrograms }

/-- `gl.drawElements(mode, count, type, offset)`: appends to the draw-call
trace, snapshotting the current depth-test flag. -/
def glDrawElements (mode count indexType offset : ℕ) (s : GLState) : GLState :=
  { s with drawCalls := s.drawCalls ++ [⟨mode, count, indexType, offset, s.depthTest⟩] }

/-- A context in its WebGL default state (depth testing starts disabled;
all stores empty; handle counter at 1). -/
def initialGLState : GLState :=
  { depthTest := false, arrayBufferBinding := none, elementArrayBinding := none
    texture2DBinding := none, activeTextureUnit := 0, unpackFlipY := false
    currentProgram := none, attachedShaders := [], linkedPrograms := []
    enabledAttribArrays := [], attribPointers := [], uniformMat4s := []
    uniformInts := [], textures := [], texParams := [], bufferStore := []
    drawCalls := [], nextId := 1 }

/-! ## The GLSkybox object -/

/-- The shader program handle together with the attribute/uniform locations
stored on it by `initShader`. -/
structure ShaderInfo where
  handle : ℕ
  vertexPositionAttribute : ℕ
  vertexCoordsAttribute : ℕ
  pMatrixUniform : ℕ
  mvMatrixUniform : ℕ
  samplerUniform : ℕ
deriving Repr, DecidableEq

/-- A buffer handle with the `itemSize` / `numItems` fields the source
attaches to it. -/
structure BufferInfo where
  handle : ℕ
  itemSize : ℕ
  numItems : ℕ
deriving Repr, DecidableEq

/-- A fully initialized skybox instance (`this` after a successful run of
the constructor body). -/
structure GLSkybox where
  shader : ShaderInfo
  texture : ℕ
  vBuffer : BufferInfo
  tBuffer : BufferInfo
  iBuffer : BufferInfo
  mMatrix : Mat4
  mvMatrix : Mat4
  position : Vec3

/-- Modelled from the spec: `assets.getShader(gl, path, kind)` is the
external shader-asset collaborator returning a compiled shader handle;
the handle is fresh. -/
def assetsGetShader (path : String) (kind : ℕ) (s : GLState) : ℕ × GLState :=
  (s.nextId, { s with nextId := s.nextId + 1 })

/-- `GLSkybox.prototype.initShader` (lines 106–135): create and link the
program, activate it, and resolve the two attribute and three uniform
locations. -/
def initShader (s : GLState) : ShaderInfo × GLState :=
  let (shader, s) := glCreateProgram s
  let (fragment, s) := assetsGetShader "./shaders/GLSkyboxF.c" WebGL.FRAGMENT_SHADER s
  let (vertex, s) := assetsGetShader "./shaders/GLSkyboxV.c" WebGL.VERTEX_SHADER s
  let s := glAttachShader shader fragment s
  let s := glAttachShader shader vertex s
  let s := glLinkProgram shader s
  let s := glUseProgram shader s
  let (vertexPositionAttribute, s) := glGetAttribLocation s
  let s := glEnableVertexAttribArray vertexPositionAttribute s
  let (vertexCoordsAttribute, s) := glGetAttribLocation s
  let s := glEnableVertexAttribArray vertexCoordsAttribute s
  let (pMatrixUniform, s) := glGetUniformLocation s
  let (mvMatrixUniform, s) := glGetUniformLocation s
  let (samplerUniform, s) := glGetUniformLocation s
  (⟨shader, vertexPositionAttribute, vertexCoordsAttribute,
    pMatrixUniform, mvMatrixUniform, samplerUniform⟩, s)

/-- The 1×1 placeholder pixel uploaded before the real image loads:
`new Uint8Array([0, 0, 200, 255])` — opaque blue. -/
def placeholderPixel : List ℕ := [0, 0, 200, 255]

/-- The image path assigned to `image.src`. -/
def skyboxImageSrc : String := "./images/skybox/skybox.png"

/-- `GLSkybox.prototype.initTexture` (lines 137–161), synchronous part:
create the texture, bind it, and upload the 1×1 placeholder.  The `Image`
construction and `onload` registration are fire-and-forget; the callback
itself is `imageOnload` below and runs at a later turn of the event loop. -/
def initTexture (s : GLState) : ℕ × GLState :=
  let (texture, s) := glCreateTexture s
  let s := glBindTexture2D (some texture) s
  let s := glTexImage2D (TexImage.pixels 1 1 placeholderPixel) s
  (texture, s)

/-- The `image.onload` callback (lines 152–159): re-bind the skybox
texture, set vertical-flip unpacking, upload the loaded image, set linear
filtering, and unbind `TEXTURE_2D`. -/
def imageOnload (texture : ℕ) (s : GLState) : GLState :=
  let s := glBindTexture2D (some texture) s
  let s := glPixelStoreiFlipY true s
  let s := glTexImage2D (TexImage.domImage skyboxImageSrc) s
  let s := glTexParameteri WebGL.TEXTURE_MAG_FILTER WebGL.LINEAR s
  let s := glTexParameteri WebGL.TEXTURE_MIN_FILTER WebGL.LINEAR s
  let s := glBindTexture2D none s
  s

/-- `GLSkybox.prototype.render` (lines 163–202), call for call in source
order.  Returns the updated instance (its `mMatrix` / `mvMatrix` fields are
overwritten every call) and the updated context. -/
def render (sb : GLSkybox) (pMatrix vMatrix : Mat4) (s : GLState) :
    GLSkybox × GLState :=
  let mM := mat4_identity
  let mM := mat4_translate mM sb.position
  let s := glDisableDepthTest s
  let s := glUseProgram sb.shader.handle s
  let s := glBindArrayBuffer (some sb.vBuffer.handle) s
  let s := glVertexAttribPointer sb.shader.vertexPositionAttribute
    sb.vBuffer.itemSize WebGL.FLOAT false 0 0 s
  let s := glBindArrayBuffer (some sb.tBuffer.handle) s
  let s := glVertexAttribPointer sb.shader.vertexCoordsAttribute
    sb.tBuffer.itemSize WebGL.FLOAT false 0 0 s
  let s := glActiveTexture WebGL.TEXTURE0 s
  let s := glBindTexture2D (some sb.texture) s
  let s := glUniform1i sb.shader.samplerUniform 0 s
  let s := glBindElementArrayBuffer (some sb.iBuffer.handle) s
  let s := glUniformMatrix4fv sb.shader.pMatrixUniform pMatrix s
  let mv := mat4_multiply vMatrix mM
  let s := glUniformMatrix4fv sb.shader.mvMatrixUniform mv s
  let s := glDrawElements WebGL.TRIANGLES sb.iBuffer.numItems WebGL.UNSIGNED_SHORT 0 s
  let s := glEnableDepthTest s
  ({ sb with mMatrix := mM, mvMatrix := mv }, s)

/-! ## The constructor and its try/catch

The constructor body (lines 28–103) runs inside `try { … } catch (err) {
console.log("GLSkybox: " + err); }`.  JavaScript exceptions can arise at
the external calls (shader compile/link, texture creation, buffer
allocation); `CtorEnv` fixes, for each such step, whether it succeeds or
throws, and the body assigns fields onto `this` in source order, so a throw
leaves every field assigned before it in place (a partially initialized
instance). -/

/-- The environment of a constructor run: the outcome of each fallible
setup step (the carried `String` is the thrown error's rendering). -/
structure CtorEnv where
  shaderOutcome : Except String Unit
  textureOutcome : Except String Unit
  vBufferOutcome : Except String Unit
  tBufferOutcome : Except String Unit
  iBufferOutcome : Except String Unit
deriving Repr

/-- The environment in which every setup step succeeds. -/
def ctorOkEnv : CtorEnv := ⟨.ok (), .ok (), .ok (), .ok (), .ok ()⟩

/-- `this` during construction: every field is optional because an
exception thrown mid-body leaves the later fields unassigned. -/
structure PartialSkybox where
  shader : Option ShaderInfo := none
  texture : Option ℕ := none
  vBuffer : Option BufferInfo := none
  tBuffer : Option BufferInfo := none
  iBuffer : Option BufferInfo := none
  mMatrix : Option Mat4 := none
  mvMatrix : Option Mat4 := none
  position : Option Vec3 := none

/-- The `try` block of the constructor, step for step in source order;
stops at the first step `env` makes throw, returning the fields assigned so
far, the context state reached, and the error (`none` when no step threw). -/
def ctorTryBody (env : CtorEnv) (s : GLState) :
    PartialSkybox × GLState × Option String :=
  let this : PartialSkybox := {}
  match env.shaderOutcome with
  | .error e => (this, s, some e)
  | .ok _ =>
  let (sh, s) := initShader s
  let this := { this with shader := some sh }
  match env.textureOutcome with
  | .error e => (this, s, some e)
  | .ok _ =>
  let (tex, s) := initTexture s
  let this := { this with texture := some tex }
  match env.vBufferOutcome with
  | .error e => (this, s, some e)
  | .ok _ =>
  let (vb, s) := glCreateBuffer s
  let s := glBindArrayBuffer (some vb) s
  let s := glBufferDataArray (BufferContent.f32 skyboxVertices) s
  let this := { this with vBuffer := some ⟨vb, 3, 24⟩ }
  match env.tBufferOutcome with
  | .error e => (this, s, some e)
  | .ok _ =>
  let (tb, s) := glCreateBuffer s
  let s := glBindArrayBuffer (some tb) s
  let s := glBufferDataArray (BufferContent.f32 skyboxCoordsFlat) s
  let this := { this with tBuffer := some ⟨tb, 2, 24⟩ }
  match env.iBufferOutcome with
  | .error e => (this, s, some e)
  | .ok _ =>
  let (ib, s) := glCreateBuffer s
  let s := glBindElementArrayBuffer (some ib) s
  let s := glBufferDataElement (BufferContent.u16 skyboxIndices) s
  let this := { this with iBuffer := some ⟨ib, 1, 36⟩ }
  let this := { this with
    mMatrix := some mat4_create
    mvMatrix := some mat4_create
    position := some (vec3_create 0 0 0) }
  (this, s, none)

/-- What `var skybox = new GLSkybox(gl)` leaves behind: the (possibly
partial) instance, the `console.log` lines emitted, and the context. -/
structure CtorResult where
  skybox : PartialSkybox
  log : List String
  state : GLState

/-- The whole constructor: the `try` block wrapped in the `catch` clause.
The result type is `Except String CtorResult` so that an uncaught exception
would show up as `.error`; the catch-all clause instead logs
`"GLSkybox: " + err` and falls off the end of the constructor, so both
branches return `.ok`. -/
def GLSkyboxNew (env : CtorEnv) (s : GLState) : Except String CtorResult :=
  match ctorTryBody env s with
  | (this, s, none) => .ok ⟨this, [], s⟩
  | (this, s, some err) => .ok ⟨this, ["GLSkybox: " ++ err], s⟩

/-- Assemble a full `GLSkybox` from a constructor run in which every field
was assigned. -/
def PartialSkybox.completed (p : PartialSkybox) : Option GLSkybox :=
  match p.shader, p.texture, p.vBuffer, p.tBuffer, p.iBuffer,
      p.mMatrix, p.mvMatrix, p.position with
  | some sh, some t, some vb, some tb, some ib, some mm, some mv, some pos =>
      some ⟨sh, t, vb, tb, ib, mm, mv, pos⟩
  | _, _, _, _, _, _, _, _ => none

/-! ## Turns of the event loop after construction

All later activity of the component is one of: a `render` call from the
frame loop, or the platform firing the `image.onload` callback.  (The
constructor has already run `initShader` / `initTexture`; neither is ever
called again, but they are included as operations so that theorems can
quantify over every operation the component defines.) -/

/-- One turn of the single-threaded event loop touching this component. -/
inductive SkyboxOp
  | render (pMatrix vMatrix : Mat4)
  | imageOnload
  | initShader
  | initTexture

/-- Run one operation on the instance and the context.  `initShader` and
`initTexture` overwrite `this.shader` / `this.texture` exactly as their
source bodies do; no operation writes `this.position`. -/
def applyOp (op : SkyboxOp) (sb : GLSkybox) (s : GLState) : GLSkybox × GLState :=
  match op with
  | .render p v => render sb p v s
  | .imageOnload => (sb, imageOnload sb.texture s)
  | .initShader =>
      let (sh, s) := initShader s
      ({ sb with shader := sh }, s)
  | .initTexture =>
      let (tex, s) := initTexture s
      ({ sb with texture := tex }, s)

/-- Run a sequence of event-loop turns, oldest first. -/
def applyOps (ops : List SkyboxOp) (sb : GLSkybox) (s : GLState) :
    GLSkybox × GLState :=
  match ops with
  | [] => (sb, s)
  | op :: rest =>
      let (sb, s) := applyOp op sb s
      applyOps rest sb s

end GLSkyboxModel

namespace GLSkyboxModel

/-! ## Helper lemmas: the effect of one `render` call

Each lemma reads one field off the state `render` returns; all hold by
unfolding the call chain. -/

lemma render_fst (sb : GLSkybox) (p v : Mat4) (s : GLState) :
    (render sb p v s).1 =
      { sb with
        mMatrix := mat4_translate mat4_identity sb.position
        mvMatrix := mat4_multiply v (mat4_translate mat4_identity sb.position) } := rfl

lemma render_depthTest (sb : GLSkybox) (p v : Mat4) (s : GLState) :
    ((render sb p v s).2).depthTest = true := rfl

lemma render_drawCalls (sb : GLSkybox) (p v : Mat4) (s : GLState) :
    ((render sb p v s).2).drawCalls =
      s.drawCalls ++
        [⟨WebGL.TRIANGLES, sb.iBuffer.numItems, WebGL.UNSIGNED_SHORT, 0, false⟩] := rfl

lemma render_texture2DBinding (sb : GLSkybox) (p v : Mat4) (s : GLState) :
    ((render sb p v s).2).texture2DBinding = some sb.texture := rfl

lemma render_textures (sb : GLSkybox) (p v : Mat4) (s : GLState) :
    ((render sb p v s).2).textures = s.textures := rfl

lemma render_unpackFlipY (sb : GLSkybox) (p v : Mat4) (s : GLState) :
    ((render sb p v s).2).unpackFlipY = s.unpackFlipY := rfl

lemma render_uniformMat4s (sb : GLSkybox) (p v : Mat4) (s : GLState) :
    ((render sb p v s).2).uniformMat4s =
      (sb.shader.mvMatrixUniform,
        mat4_multiply v (mat4_translate mat4_identity sb.position)) ::
      (sb.shader.pMatrixUniform, p) :: s.uniformMat4s := rfl

/-- The translation by the zero vector is the identity matrix. -/
lemma translationMat_zero : translationMat (vec3_create 0 0 0) = 1 := by
  ext i j
  fin_cases i <;> fin_cases j <;>
    simp [translationMat, vec3_create, Matrix.one_apply,
      Matrix.vecHead, Matrix.vecTail]

/-- A concrete fully-initialized instance, used to instantiate theorems at
a closed input (handles and locations as a successful construction on a
fresh context would assign them). -/
def sampleSkybox : GLSkybox :=
  { shader := ⟨1, 4, 5, 6, 7, 8⟩, texture := 9
    vBuffer := ⟨10, 3, 24⟩, tBuffer := ⟨11, 2, 24⟩, iBuffer := ⟨12, 1, 36⟩
    mMatrix := 1, mvMatrix := 1, position := vec3_create 0 0 0 }

/-- C3: the mesh fixed at construction has exactly 24 vertex positions
(72 floats), exactly 36 triangle-list indices, and every index lies in
[0, 23]. -/
theorem claim_C3_mesh_fixture :
    skyboxVertices.length = 72 ∧ skyboxVertices.length = 24 * 3 ∧
    skyboxIndices.length = 36 ∧ ∀ i ∈ skyboxIndices, i ≤ 23 := by
  refine ⟨by simp [skyboxVertices], by simp [skyboxVertices], by decide, ?_⟩
  decide

/-- C4: each face's four texture coordinates fall inside that face's
assigned quadrant of the 4×4 atlas grid; in particular the front face's
coordinates lie in [0.25, 0.50] × [0.50, 0.75]. -/
theorem claim_C4_atlas_quadrants :
    (∀ f : Fin 6, ∀ uv ∈ faceCoords f, inQuadrant (faceQuadrant f) uv) ∧
    (∀ uv ∈ faceCoords 0,
      (1 : ℚ)/4 ≤ uv.1 ∧ uv.1 ≤ 2/4 ∧ (2 : ℚ)/4 ≤ uv.2 ∧ uv.2 ≤ 3/4) := by
  constructor
  · intro f
    fin_cases f <;>
      · intro uv h
        simp only [faceCoords, skyboxCoords, faceQuadrant, List.drop, List.take,
          List.mem_cons, List.not_mem_nil, or_false] at h
        rcases h with rfl | rfl | rfl | rfl <;> norm_num [faceQuadrant, inQuadrant]
  · intro uv h
    simp only [faceCoords, skyboxCoords, List.drop, List.take, Fin.val_zero,
      Nat.mul_zero, List.mem_cons, List.not_mem_nil, or_false] at h
    rcases h with rfl | rfl | rfl | rfl <;> norm_num

/-- Witness for C3: the first entry of the index list is an index and is at
most 23. -/
theorem claim_C3_witness : (0 : ℕ) ∈ skyboxIndices ∧ (0 : ℕ) ≤ 23 :=
  ⟨by decide, claim_C3_mesh_fixture.2.2.2 0 (by decide)⟩

/-- Witness for C4: the front face's first coordinate pair (0.25, 0.50)
lies in the front quadrant. -/
theorem claim_C4_witness :
    ((1 : ℚ)/4, (2 : ℚ)/4) ∈ faceCoords 0 ∧
      inQuadrant (faceQuadrant 0) ((1 : ℚ)/4, (2 : ℚ)/4) := by
  have hm : ((1 : ℚ)/4, (2 : ℚ)/4) ∈ faceCoords 0 := by
    simp [faceCoords, skyboxCoords]
  exact ⟨hm, claim_C4_atlas_quadrants.1 0 _ hm⟩

/-- C1: whatever the depth-test state on entry, `render` returns with the
depth test enabled: it disables it before drawing (the one draw call it
issues is traced with depth testing inactive) and unconditionally re-enables
it before returning. -/
theorem claim_C1_depth_test_restored (sb : GLSkybox) (p v : Mat4) (s : GLState) :
    ((render sb p v s).2).depthTest = true ∧
    ∃ dc, ((render sb p v s).2).drawCalls = s.drawCalls ++ [dc] ∧
      dc.depthTestActive = false := by
  exact ⟨render_depthTest sb p v s, _, render_drawCalls sb p v s, rfl⟩

/-- C2: in every `render` call the model-view matrix uploaded to the
`uMVMatrix` uniform is `view × model`, where the model matrix is the
identity translated by the stored position; with an identity view matrix it
is exactly the pure translation matrix of the position. -/
theorem claim_C2_modelview_product (sb : GLSkybox) (p v : Mat4) (s : GLState) :
    ((render sb p v s).2).uniformMat4s.lookup sb.shader.mvMatrixUniform =
      some (mat4_multiply v (mat4_translate mat4_identity sb.position)) ∧
    (v = 1 →
      ((render sb p v s).2).uniformMat4s.lookup sb.shader.mvMatrixUniform =
        some (translationMat sb.position)) := by
  constructor
  · rw [render_uniformMat4s]
    simp [List.lookup]
  · rintro rfl
    rw [render_uniformMat4s]
    simp [List.lookup, mat4_multiply, mat4_translate, mat4_identity, one_mul]

/-- Witness for C2 at a concrete skybox, identity view and projection, and
the default context: the uploaded model-view matrix is the translation by
the zero position, i.e. the identity. -/
theorem claim_C2_witness :
    ((render sampleSkybox 1 1 initialGLState).2).uniformMat4s.lookup
        sampleSkybox.shader.mvMatrixUniform =
      some (translationMat (vec3_create 0 0 0)) :=
  (claim_C2_modelview_product sampleSkybox 1 1 initialGLState).2 rfl

/-- C8: every `render` call resets the model matrix to the identity
translated by the stored position, and appends exactly one indexed
triangle-list draw call to the trace, drawing `iBuffer.numItems` indices
(36 for a constructed instance) as unsigned shorts from offset 0. -/
theorem claim_C8_single_draw (sb : GLSkybox) (p v : Mat4) (s : GLState) :
    (render sb p v s).1.mMatrix = mat4_translate mat4_identity sb.position ∧
    ((render sb p v s).2).drawCalls =
      s.drawCalls ++
        [⟨WebGL.TRIANGLES, sb.iBuffer.numItems, WebGL.UNSIGNED_SHORT, 0, false⟩] ∧
    (sb.iBuffer.numItems = 36 →
      ((render sb p v s).2).drawCalls =
        s.drawCalls ++ [⟨WebGL.TRIANGLES, 36, WebGL.UNSIGNED_SHORT, 0, false⟩]) := by
  refine ⟨by rw [render_fst], render_drawCalls sb p v s, ?_⟩
  intro h
  rw [render_drawCalls, h]

/-- Witness for C8: the concrete instance has a 36-item index buffer, and
its render appends the single 36-index triangle draw. -/
theorem claim_C8_witness :
    ((render sampleSkybox 1 1 initialGLState).2).drawCalls =
      initialGLState.drawCalls ++
        [⟨WebGL.TRIANGLES, 36, WebGL.UNSIGNED_SHORT, 0, false⟩] :=
  (claim_C8_single_draw sampleSkybox 1 1 initialGLState).2.2 rfl

/-! ## Helper lemmas: the constructor -/

/-- The constructor never surfaces an exception: both arms of the catch
return `.ok`. -/
lemma ctorNew_isOk (env : CtorEnv) (s : GLState) :
    ∃ r, GLSkyboxNew env s = Except.ok r := by
  unfold GLSkyboxNew
  rcases ctorTryBody env s with ⟨this, s', e?⟩
  cases e? <;> exact ⟨_, rfl⟩

/-- When a setup step throws, the catch clause logs `"GLSkybox: " + err`
and the constructor still returns the partial instance. -/
lemma ctorNew_error (env : CtorEnv) (s : GLState) (e : String)
    (h : (ctorTryBody env s).2.2 = some e) :
    GLSkyboxNew env s =
      Except.ok ⟨(ctorTryBody env s).1, ["GLSkybox: " ++ e],
        (ctorTryBody env s).2.1⟩ := by
  unfold GLSkyboxNew
  rcases hb : ctorTryBody env s with ⟨this, s', e?⟩
  rw [hb] at h
  cases e? with
  | none => simp at h
  | some e₂ => simp at h; subst h; rfl

/-- A throw anywhere in the body leaves `this.position` unassigned (it is
the last field the body sets). -/
lemma ctor_error_position_none (env : CtorEnv) (s : GLState) (e : String)
    (h : (ctorTryBody env s).2.2 = some e) :
    (ctorTryBody env s).1.position = none := by
  obtain ⟨o1, o2, o3, o4, o5⟩ := env
  cases o1 <;> cases o2 <;> cases o3 <;> cases o4 <;> cases o5 <;>
    simp [ctorTryBody] at h ⊢

/-- When no setup step throws, the body runs to completion: no error, and
the matrix / position fields get their initial values. -/
lemma ctor_success_fields (env : CtorEnv) (s : GLState)
    (h : (ctorTryBody env s).2.2 = none) :
    (ctorTryBody env s).1.mMatrix = some mat4_create ∧
    (ctorTryBody env s).1.mvMatrix = some mat4_create ∧
    (ctorTryBody env s).1.position = some (vec3_create 0 0 0) := by
  obtain ⟨o1, o2, o3, o4, o5⟩ := env
  cases o1 <;> cases o2 <;> cases o3 <;> cases o4 <;> cases o5 <;>
    simp [ctorTryBody] at h ⊢

/-- C5: every exception thrown during the constructor body is caught: the
constructor returns normally (`.ok`) for every outcome environment, and
when a step threw `e` it has logged `"GLSkybox: " + e` and handed back the
partially initialized instance (its `position`, assigned last, is still
unset). -/
theorem claim_C5_ctor_swallows (env : CtorEnv) (s : GLState) :
    (∃ r, GLSkyboxNew env s = Except.ok r) ∧
    (∀ e, (ctorTryBody env s).2.2 = some e →
      GLSkyboxNew env s =
        Except.ok ⟨(ctorTryBody env s).1, ["GLSkybox: " ++ e],
          (ctorTryBody env s).2.1⟩ ∧
      (ctorTryBody env s).1.position = none) := by
  refine ⟨ctorNew_isOk env s, fun e h => ⟨ctorNew_error env s e h, ?_⟩⟩
  exact ctor_error_position_none env s e h

/-- Witness for C5: a constructor run whose shader step throws "link"
returns `.ok` with the log line and no position assigned. -/
theorem claim_C5_witness :
    (∃ r, GLSkyboxNew ⟨Except.error "link", .ok (), .ok (), .ok (), .ok ()⟩
        initialGLState = Except.ok r) ∧
    GLSkyboxNew ⟨Except.error "link", .ok (), .ok (), .ok (), .ok ()⟩
        initialGLState =
      Except.ok ⟨(ctorTryBody ⟨Except.error "link", .ok (), .ok (), .ok (), .ok ()⟩
          initialGLState).1, ["GLSkybox: " ++ "link"],
        (ctorTryBody ⟨Except.error "link", .ok (), .ok (), .ok (), .ok ()⟩
          initialGLState).2.1⟩ ∧
    (ctorTryBody ⟨Except.error "link", .ok (), .ok (), .ok (), .ok ()⟩
        initialGLState).1.position = none := by
  have h := claim_C5_ctor_swallows
    ⟨Except.error "link", .ok (), .ok (), .ok (), .ok ()⟩ initialGLState
  exact ⟨h.1, (h.2 "link" rfl).1, (h.2 "link" rfl).2⟩

/-- C7: after a successful construction (no step threw), the model matrix
and the model-view matrix are the identity and the position is the zero
vector. -/
theorem claim_C7_initial_transform (env : CtorEnv) (s : GLState)
    (h : (ctorTryBody env s).2.2 = none) :
    (ctorTryBody env s).1.mMatrix = some (1 : Mat4) ∧
    (ctorTryBody env s).1.mvMatrix = some (1 : Mat4) ∧
    (ctorTryBody env s).1.position = some (vec3_create 0 0 0) :=
  ctor_success_fields env s h

/-- The texture handle a fully successful construction stores on `this`
(the ninth fresh id: eight go to the shader program, its two compiled
shaders and its five locations). -/
lemma ctorOk_texture (s : GLState) :
    (ctorTryBody ctorOkEnv s).1.texture = some (s.nextId + 8) := by
  simp only [ctorTryBody, ctorOkEnv, initShader, assetsGetShader, glCreateProgram,
    glAttachShader, glLinkProgram, glUseProgram, glGetAttribLocation,
    glEnableVertexAttribArray, glGetUniformLocation, initTexture, glCreateTexture,
    glBindTexture2D, glTexImage2D, glCreateBuffer, glBindArrayBuffer,
    glBufferDataArray, glBindElementArrayBuffer, glBufferDataElement]

/-- After a fully successful construction the texture store maps the skybox
texture to the 1×1 placeholder upload. -/
lemma ctorOk_textures (s : GLState) :
    (ctorTryBody ctorOkEnv s).2.1.textures =
      (s.nextId + 8, TexImage.pixels 1 1 placeholderPixel) :: s.textures := by
  simp only [ctorTryBody, ctorOkEnv, initShader, assetsGetShader, glCreateProgram,
    glAttachShader, glLinkProgram, glUseProgram, glGetAttribLocation,
    glEnableVertexAttribArray, glGetUniformLocation, initTexture, glCreateTexture,
    glBindTexture2D, glTexImage2D, glCreateBuffer, glBindArrayBuffer,
    glBufferDataArray, glBindElementArrayBuffer, glBufferDataElement]

/-- The complete instance a fully successful construction produces. -/
lemma ctorOk_completed (s : GLState) :
    (ctorTryBody ctorOkEnv s).1.completed =
      some ⟨⟨s.nextId, s.nextId + 3, s.nextId + 4, s.nextId + 5, s.nextId + 6,
          s.nextId + 7⟩,
        s.nextId + 8, ⟨s.nextId + 9, 3, 24⟩, ⟨s.nextId + 10, 2, 24⟩,
        ⟨s.nextId + 11, 1, 36⟩, mat4_create, mat4_create, vec3_create 0 0 0⟩ := by
  simp only [ctorTryBody, ctorOkEnv, initShader, assetsGetShader, glCreateProgram,
    glAttachShader, glLinkProgram, glUseProgram, glGetAttribLocation,
    glEnableVertexAttribArray, glGetUniformLocation, initTexture, glCreateTexture,
    glBindTexture2D, glTexImage2D, glCreateBuffer, glBindArrayBuffer,
    glBufferDataArray, glBindElementArrayBuffer, glBufferDataElement,
    PartialSkybox.completed]

/-- C6: immediately after a successful construction — before the
asynchronous image load resolves — the skybox texture holds the 1×1
opaque-blue placeholder `[0, 0, 200, 255]` (alpha 255), and a render call
issued at that point binds exactly that placeholder texture. -/
theorem claim_C6_placeholder_texture (s : GLState) (p v : Mat4) :
    ∃ t,
      (ctorTryBody ctorOkEnv s).1.texture = some t ∧
      (ctorTryBody ctorOkEnv s).2.1.textures.lookup t =
        some (TexImage.pixels 1 1 placeholderPixel) ∧
      placeholderPixel = [0, 0, 200, 255] ∧
      ∀ sb, (ctorTryBody ctorOkEnv s).1.completed = some sb →
        sb.texture = t ∧
        ((render sb p v (ctorTryBody ctorOkEnv s).2.1).2).texture2DBinding =
          some t ∧
        ((render sb p v (ctorTryBody ctorOkEnv s).2.1).2).textures.lookup t =
          some (TexImage.pixels 1 1 placeholderPixel) := by
  refine ⟨s.nextId + 8, ctorOk_texture s, ?_, rfl, ?_⟩
  · rw [ctorOk_textures]
    simp [List.lookup]
  · intro sb h
    rw [ctorOk_completed] at h
    obtain rfl : _ = sb := Option.some_injective _ h
    refine ⟨rfl, ?_, ?_⟩
    · rw [render_texture2DBinding]
    · rw [render_textures, ctorOk_textures]
      simp [List.lookup]

/-- Witness for C6 (for the hypothesis of its last conjunct): on the
default context, the completed instance renders with the placeholder
texture bound. -/
theorem claim_C6_witness :
    ∃ t,
      (ctorTryBody ctorOkEnv initialGLState).1.texture = some t ∧
      ∀ sb, (ctorTryBody ctorOkEnv initialGLState).1.completed = some sb →
        ((render sb 1 1 (ctorTryBody ctorOkEnv initialGLState).2.1).2).textures.lookup
            t = some (TexImage.pixels 1 1 placeholderPixel) := by
  obtain ⟨t, h₁, h₂, h₃, h₄⟩ := claim_C6_placeholder_texture initialGLState 1 1
  exact ⟨t, h₁, fun sb h => (h₄ sb h).2.2⟩

/-- Witness for C7: the all-success environment on the default context. -/
theorem claim_C7_witness :
    (ctorTryBody ctorOkEnv initialGLState).1.mMatrix = some (1 : Mat4) ∧
    (ctorTryBody ctorOkEnv initialGLState).1.mvMatrix = some (1 : Mat4) ∧
    (ctorTryBody ctorOkEnv initialGLState).1.position =
      some (vec3_create 0 0 0) :=
  claim_C7_initial_transform ctorOkEnv initialGLState rfl

/-! ## Helper lemmas: operation sequences -/

/-- No single operation writes `this.position`. -/
lemma applyOp_position (op : SkyboxOp) (sb : GLSkybox) (s : GLState) :
    (applyOp op sb s).1.position = sb.position := by
  cases op <;> rfl

/-- No sequence of operations writes `this.position`. -/
lemma applyOps_position (ops : List SkyboxOp) (sb : GLSkybox) (s : GLState) :
    (applyOps ops sb s).1.position = sb.position := by
  induction ops generalizing sb s with
  | nil => rfl
  | cons op rest ih =>
    have h : applyOps (op :: rest) sb s =
        applyOps rest (applyOp op sb s).1 (applyOp op sb s).2 := rfl
    rw [h, ih, applyOp_position]

/-- `initShader` never touches the vertical-flip unpack flag. -/
lemma initShader_unpackFlipY (s : GLState) :
    ((initShader s).2).unpackFlipY = s.unpackFlipY := by
  simp only [initShader, assetsGetShader, glCreateProgram, glAttachShader,
    glLinkProgram, glUseProgram, glGetAttribLocation,
    glEnableVertexAttribArray, glGetUniformLocation]

/-- `initTexture` never touches the vertical-flip unpack flag. -/
lemma initTexture_unpackFlipY (s : GLState) :
    ((initTexture s).2).unpackFlipY = s.unpackFlipY := by
  simp only [initTexture, glCreateTexture, glBindTexture2D, glTexImage2D]

/-- Once the vertical-flip unpack flag is set, no operation of this
component clears it. -/
lemma applyOp_flipY (op : SkyboxOp) (sb : GLSkybox) (s : GLState)
    (h : s.unpackFlipY = true) : ((applyOp op sb s).2).unpackFlipY = true := by
  cases op with
  | render p v => exact (render_unpackFlipY sb p v s).trans h
  | imageOnload => rfl
  | initShader => exact (initShader_unpackFlipY s).trans h
  | initTexture => exact (initTexture_unpackFlipY s).trans h

/-- The flip flag survives any sequence of operations. -/
lemma applyOps_flipY (ops : List SkyboxOp) (sb : GLSkybox) (s : GLState)
    (h : s.unpackFlipY = true) : ((applyOps ops sb s).2).unpackFlipY = true := by
  induction ops generalizing sb s with
  | nil => exact h
  | cons op rest ih =>
    have he : applyOps (op :: rest) sb s =
        applyOps rest (applyOp op sb s).1 (applyOp op sb s).2 := rfl
    rw [he]
    exact ih _ _ (applyOp_flipY op sb s h)

/-- C9: no operation mutates the position vector — `render`, `initShader`,
`initTexture` and the image-load callback only read it — so across every
operation sequence the position keeps its construction-time value, and when
that value is the zero vector the model matrix computed inside every later
`render` call is the identity. -/
theorem claim_C9_position_immutable (ops : List SkyboxOp) (sb : GLSkybox)
    (s : GLState) :
    (applyOps ops sb s).1.position = sb.position ∧
    (sb.position = vec3_create 0 0 0 →
      ∀ p v s₂, ((render (applyOps ops sb s).1 p v s₂).1).mMatrix = 1) := by
  refine ⟨applyOps_position ops sb s, fun h p v s₂ => ?_⟩
  show mat4_translate mat4_identity (applyOps ops sb s).1.position = 1
  rw [applyOps_position, h, mat4_translate, mat4_identity, one_mul,
    translationMat_zero]

/-- Witness for C9: after an image-load turn on the concrete instance
(whose position is zero), a render still computes the identity model
matrix. -/
theorem claim_C9_witness :
    ((render (applyOps [SkyboxOp.imageOnload] sampleSkybox initialGLState).1
        1 1 initialGLState).1).mMatrix = 1 :=
  (claim_C9_position_immutable [SkyboxOp.imageOnload] sampleSkybox
    initialGLState).2 rfl 1 1 initialGLState

/-- C10: the image-load callback returns with the 2D texture binding unbound
(`null`) — unlike `render`, which returns with the skybox texture bound —
and it sets the vertical-flip unpack flag, which no later operation of the
component ever clears. -/
theorem claim_C10_onload_bindings (t : ℕ) (s : GLState) :
    (imageOnload t s).texture2DBinding = none ∧
    (imageOnload t s).unpackFlipY = true ∧
    (∀ sb p v s₂, ((render sb p v s₂).2).texture2DBinding = some sb.texture) ∧
    (∀ ops sb, ((applyOps ops sb (imageOnload t s)).2).unpackFlipY = true) :=
  ⟨rfl, rfl, fun sb p v s₂ => render_texture2DBinding sb p v s₂,
    fun ops sb => applyOps_flipY ops sb _ rfl⟩

end GLSkyboxModel
